import Mathlib

/- Batteries marks the arithmetic of `Rat` `@[irreducible]`, which blocks
`decide` on concrete scores; the engine's scores are exact rationals, so
reduction is restored here (soundness is unaffected, the kernel checks
every proof either way). -/
set_option allowUnsafeReducibility true
attribute [local semireducible] Rat.mul Rat.inv Rat.div

/-!
Shallow embedding of the Context-Rot-Monitor drift-detection engine
(src/backend/drift_engine.py) and of the hosted-service glue it needs
(src/backend/main.py), together with proofs settling the frozen claims
about the engine's state machine, its verdict schedule and its lexical
fallback score.

Modelling conventions:
- Python floats are modelled as rationals (ℚ); the claims only compare
  scores with thresholds and with 0 and 1, all exact.
- The TF-IDF vectorization (sklearn, a third-party library) is modelled
  as an oracle `TfidfOracle : String → String → Option ℚ`; `none` stands
  for the vectorizer raising (the `except` branch of `check_drift`), in
  which case the engine computes the lexical fallback exactly as in the
  source (drift_engine.py lines 122-130).
- A Python exception is modelled with `Except Unit`: `check_drift`
  raises before any mutation, so an `.error` result means the caller's
  engine state is unchanged; `add_turn` mutates before its inner check
  can raise, so it returns the post-call state alongside the result.
- `datetime.now()` timestamps are not modelled (wall clock; no claim
  mentions them).
-/

/-- drift_engine.py lines 13-18: one conversation turn (timestamp omitted,
see module comment). -/
structure ConversationTurn where
  turn_number : Nat
  user_message : String
  assistant_response : String
deriving Repr, DecidableEq

/-- drift_engine.py lines 21-27: a drift verdict. -/
structure DriftMetrics where
  turn_number : Nat
  similarity_score : ℚ
  is_drifting : Bool
  last_good_turn : Nat
  drift_reason : Option String
deriving Repr, DecidableEq

/-- drift_engine.py lines 30-56: the engine state set up by
`DriftEngine.__init__` (the sklearn vectorizer object itself is replaced
by the `TfidfOracle` parameter of each operation). -/
structure DriftEngine where
  threshold : ℚ
  check_interval : Nat
  north_star : Option String
  conversation_history : List ConversationTurn
  drift_history : List DriftMetrics
  last_good_turn : Nat
  all_texts : List String
deriving Repr, DecidableEq

/-- drift_engine.py lines 31-56: `DriftEngine(similarity_threshold, check_interval)`
(`__init__` sets `last_good_turn = 0` and empty histories). -/
def mkEngine (similarity_threshold : ℚ) (check_interval : Nat) : DriftEngine :=
  { threshold := similarity_threshold
    check_interval := check_interval
    north_star := none
    conversation_history := []
    drift_history := []
    last_good_turn := 0
    all_texts := [] }

/-- Abstract model of `self.vectorizer.fit_transform` + cosine similarity on
the two compared texts: `some q` is a successful vectorization scoring `q`,
`none` is the raising case caught at drift_engine.py line 122. -/
def TfidfOracle : Type := String → String → Option ℚ

/-- drift_engine.py lines 58-63: `set_north_star` stores the goal, resets
`all_texts` to the goal alone and sets `last_good_turn = 1`.  It touches no
other field: in particular it does NOT clear `conversation_history` or
`drift_history`. -/
def set_north_star (e : DriftEngine) (initial_prompt : String) : DriftEngine :=
  { e with
    north_star := some initial_prompt
    all_texts := [initial_prompt]
    last_good_turn := 1 }

/-- Python truthiness test `if not self.north_star` at drift_engine.py
line 110: true when the goal is unset or the empty string. -/
def goalUnset (e : DriftEngine) : Bool :=
  match e.north_star with
  | none => true
  | some s => s.isEmpty

/-- drift_engine.py lines 90-101: `generate_state_summary` joins the
user+assistant text of the last 3 turns (Python `[-3:]`) with spaces. -/
def generate_state_summary (e : DriftEngine) : String :=
  let recent_turns := e.conversation_history.drop (e.conversation_history.length - 3)
  String.intercalate " "
    (recent_turns.map fun t => t.user_message ++ " " ++ t.assistant_response)

/-- Python `set(s.lower().split())`: the set of lowercase
whitespace-separated words of a text (drift_engine.py lines 125-126). -/
def pyWordsAux : List Char → List Char → List String
  | [], cur => if cur.isEmpty then [] else [String.mk cur.reverse]
  | c :: rest, cur =>
    if c.isWhitespace then
      if cur.isEmpty then pyWordsAux rest []
      else String.mk cur.reverse :: pyWordsAux rest []
    else pyWordsAux rest (c :: cur)

/-- The word set itself (a `Finset`, mirroring Python's `set`); Python's
`str.lower()` is applied character by character. -/
def wordSet (s : String) : Finset String :=
  (pyWordsAux (s.toList.map Char.toLower) []).toFinset

/-- drift_engine.py lines 124-130: the lexical fallback score
`len(A & B) / len(A | B)`, `0.0` when the union is empty. -/
def fallbackSimilarity (a b : String) : ℚ :=
  let north_words := wordSet a
  let current_words := wordSet b
  if (north_words ∪ current_words).card > 0 then
    ((north_words ∩ current_words).card : ℚ) / ((north_words ∪ current_words).card : ℚ)
  else 0

/-- drift_engine.py lines 113-130: the similarity actually used by
`check_drift` — the oracle's score when vectorization succeeds, the
lexical fallback when it raises. -/
def similarity_of (sim : TfidfOracle) (e : DriftEngine) : ℚ :=
  let current_state := generate_state_summary e
  match sim (e.north_star.getD "") current_state with
  | some s => s
  | none => fallbackSimilarity (e.north_star.getD "") current_state

/-- drift_engine.py lines 103-150: `check_drift`.  Raises (`.error`) iff the
goal is unset — before any mutation, so on error the caller's state is
unchanged.  Otherwise computes the similarity, sets
`is_drifting = similarity < threshold`, updates `last_good_turn` to the
current history length when not drifting, and appends the verdict to
`drift_history`. -/
def check_drift (sim : TfidfOracle) (e : DriftEngine) :
    Except Unit (DriftMetrics × DriftEngine) :=
  if goalUnset e then .error () else
  let similarity := similarity_of sim e
  let is_drifting : Bool := similarity < e.threshold
  let lgt := if is_drifting then e.last_good_turn else e.conversation_history.length
  let metrics : DriftMetrics :=
    { turn_number := e.conversation_history.length
      similarity_score := similarity
      is_drifting := is_drifting
      last_good_turn := lgt
      drift_reason := none }
  .ok (metrics, { e with
    last_good_turn := lgt
    drift_history := e.drift_history ++ [metrics] })

/-- drift_engine.py lines 65-88: `add_turn` appends the turn (numbered
`len(history) + 1`) and its text unconditionally — there is no
initialization check — then runs `check_drift` iff the new turn number is a
multiple of `check_interval`.  The returned engine is the state after the
call even when the inner check raises (the turn stays appended). -/
def add_turn (sim : TfidfOracle) (e : DriftEngine)
    (user_message assistant_response : String) :
    DriftEngine × Except Unit (Option DriftMetrics) :=
  let turn_number := e.conversation_history.length + 1
  let turn : ConversationTurn :=
    { turn_number := turn_number
      user_message := user_message
      assistant_response := assistant_response }
  let e1 := { e with
    conversation_history := e.conversation_history ++ [turn]
    all_texts := e.all_texts ++ [user_message ++ " " ++ assistant_response] }
  if turn_number % e.check_interval = 0 then
    match check_drift sim e1 with
    | .ok (m, e2) => (e2, .ok (some m))
    | .error _ => (e1, .error ())
  else (e1, .ok none)

/-- The fields of the dictionary built by `get_conversation_summary`
(drift_engine.py lines 152-168). -/
structure ConversationSummary where
  total_turns : Nat
  north_star : Option String
  last_good_turn : Nat
  current_drift_status : Bool
  drift_checks : Nat
  conversation_history : List (Nat × String × String)
deriving Repr, DecidableEq

/-- drift_engine.py lines 152-168: `get_conversation_summary` (pure read). -/
def get_conversation_summary (e : DriftEngine) : ConversationSummary :=
  { total_turns := e.conversation_history.length
    north_star := e.north_star
    last_good_turn := e.last_good_turn
    current_drift_status := ((e.drift_history.getLast?).map (·.is_drifting)).getD false
    drift_checks := e.drift_history.length
    conversation_history :=
      e.conversation_history.map fun t =>
        (t.turn_number, t.user_message, t.assistant_response) }

/-- main.py line 27: the hosted service's module-level engine,
`DriftEngine(similarity_threshold=0.7, check_interval=3)`. -/
def hostedEngine : DriftEngine := mkEngine (7/10) 3

/-- main.py lines 207-212: the `/reset` endpoint discards the current
engine and rebinds the global to `DriftEngine(similarity_threshold=0.45,
check_interval=3)`; the argument is the instance being replaced. -/
def reset_conversation (_e : DriftEngine) : DriftEngine := mkEngine (45/100) 3

/-- Verdict counter: runs `add_turn` over a list of (user, assistant)
pairs and counts the calls that return a verdict (main loop of the
automatic-trigger claim). -/
def run_turns (sim : TfidfOracle) : DriftEngine → List (String × String) → DriftEngine × Nat
  | e, [] => (e, 0)
  | e, (u, a) :: rest =>
    let step := add_turn sim e u a
    let tail := run_turns sim step.1 rest
    (tail.1, (match step.2 with | .ok (some _) => 1 | _ => 0) + tail.2)

/-- The oracle standing for a vectorizer whose `fit_transform` raises on
every pair of texts (the `except` path at drift_engine.py line 122): every
check then uses the lexical fallback. -/
def failingVectorizer : TfidfOracle := fun _ _ => none

/-- The oracle standing for a vectorizer scoring every pair of texts `q`. -/
def constVectorizer (q : ℚ) : TfidfOracle := fun _ _ => some q

/-! ## Helper lemmas -/

theorem fallback_nonneg (a b : String) : 0 ≤ fallbackSimilarity a b := by
  unfold fallbackSimilarity
  dsimp only
  split
  · positivity
  · exact le_refl 0

theorem fallback_le_one (a b : String) : fallbackSimilarity a b ≤ 1 := by
  unfold fallbackSimilarity
  dsimp only
  split
  case isTrue h =>
    rw [div_le_one (by exact_mod_cast h)]
    exact_mod_cast Finset.card_le_card Finset.inter_subset_union
  case isFalse h => exact zero_le_one

theorem fallback_union_empty (a b : String) (h : wordSet a ∪ wordSet b = ∅) :
    fallbackSimilarity a b = 0 := by
  unfold fallbackSimilarity
  simp [h]

theorem fallback_disjoint (a b : String) (h : wordSet a ∩ wordSet b = ∅) :
    fallbackSimilarity a b = 0 := by
  unfold fallbackSimilarity
  dsimp only
  split
  · simp [h]
  · rfl

theorem fallback_self (a : String) (h : wordSet a ≠ ∅) :
    fallbackSimilarity a a = 1 := by
  unfold fallbackSimilarity
  dsimp only
  rw [Finset.union_self, Finset.inter_self]
  have hc : 0 < (wordSet a).card := Finset.card_pos.mpr (Finset.nonempty_iff_ne_empty.mpr h)
  rw [if_pos hc]
  exact div_self (by exact_mod_cast hc.ne')

theorem similarity_of_congr (sim : TfidfOracle) (e₁ e₂ : DriftEngine)
    (hn : e₁.north_star = e₂.north_star)
    (hc : e₁.conversation_history = e₂.conversation_history) :
    similarity_of sim e₁ = similarity_of sim e₂ := by
  unfold similarity_of generate_state_summary
  rw [hn, hc]

theorem goalUnset_congr (e₁ e₂ : DriftEngine) (hn : e₁.north_star = e₂.north_star) :
    goalUnset e₁ = goalUnset e₂ := by
  unfold goalUnset
  rw [hn]

/-- The one-step unfolding of `check_drift` on an initialized engine. -/
theorem check_drift_unfold (sim : TfidfOracle) (e : DriftEngine) (h : goalUnset e = false) :
    check_drift sim e = .ok
      ({ turn_number := e.conversation_history.length
         similarity_score := similarity_of sim e
         is_drifting := decide (similarity_of sim e < e.threshold)
         last_good_turn :=
           if similarity_of sim e < e.threshold then
             e.last_good_turn else e.conversation_history.length
         drift_reason := none },
       { e with
         last_good_turn :=
           if similarity_of sim e < e.threshold then
             e.last_good_turn else e.conversation_history.length
         drift_history := e.drift_history ++
           [{ turn_number := e.conversation_history.length
              similarity_score := similarity_of sim e
              is_drifting := decide (similarity_of sim e < e.threshold)
              last_good_turn :=
                if similarity_of sim e < e.threshold then
                  e.last_good_turn else e.conversation_history.length
              drift_reason := none }] }) := by
  rw [check_drift, if_neg (by simp [h])]
  by_cases hs : similarity_of sim e < e.threshold <;> simp [hs]


/-! ## Claim theorems -/

/-- C8 (counterexample): the fallback score of the pair of identical texts
`""` is `0`, not `1` — identical texts with no whitespace-separated words
fall under the empty-union case. -/
theorem fallback_identical_empty_counterexample :
    ("" : String) = "" ∧ fallbackSimilarity "" "" = 0 ∧ fallbackSimilarity "" "" ≠ 1 := by
  refine ⟨rfl, by decide, by decide⟩

/-- C8 (amended): the fallback score is total, always in `[0,1]`, `0` when
the union of the two lowercase whitespace-tokenized word sets is empty, `0`
when the word sets are disjoint, and `1` for identical texts that contain
at least one word. -/
theorem fallback_correct (a b : String) :
    (0 ≤ fallbackSimilarity a b ∧ fallbackSimilarity a b ≤ 1) ∧
    (wordSet a ∪ wordSet b = ∅ → fallbackSimilarity a b = 0) ∧
    (wordSet a ∩ wordSet b = ∅ → fallbackSimilarity a b = 0) ∧
    (a = b → wordSet a ≠ ∅ → fallbackSimilarity a b = 1) := by
  refine ⟨⟨fallback_nonneg a b, fallback_le_one a b⟩,
    fallback_union_empty a b, fallback_disjoint a b, fun hab h => ?_⟩
  subst hab
  exact fallback_self a h

/-- Witness for `fallback_correct` at the inputs `(" ", " ")`,
`("cat dog", "bird")` and `("cat dog", "cat dog")`. -/
theorem fallback_correct_witness :
    fallbackSimilarity " " " " = 0 ∧
    fallbackSimilarity "cat dog" "bird" = 0 ∧
    fallbackSimilarity "cat dog" "cat dog" = 1 :=
  ⟨(fallback_correct " " " ").2.1 (by decide),
   (fallback_correct "cat dog" "bird").2.2.1 (by decide),
   (fallback_correct "cat dog" "cat dog").2.2.2 rfl (by decide)⟩

/-- C9 (counterexample): the hosted service's engine is constructed with
threshold `0.7` (main.py line 27) but `/reset` replaces it by an engine with
threshold `0.45` (main.py line 211) — not the same configured threshold. -/
theorem reset_threshold_counterexample :
    hostedEngine.threshold = 7/10 ∧
    (reset_conversation hostedEngine).threshold = 45/100 ∧
    (reset_conversation hostedEngine).threshold ≠ hostedEngine.threshold := by
  refine ⟨rfl, rfl, by decide⟩

/-- C9 (amended): `/reset` discards the engine instance and constructs a
fresh uninitialized one with the same check interval `3` but with
similarity threshold `0.45` (the standalone default), regardless of the
threshold of the instance it replaces. -/
theorem reset_conversation_fresh (e : DriftEngine) :
    reset_conversation e = mkEngine (45/100) 3 ∧
    (reset_conversation e).threshold = 45/100 ∧
    (reset_conversation e).check_interval = 3 ∧
    (reset_conversation e).north_star = none ∧
    (reset_conversation e).conversation_history = [] ∧
    (reset_conversation e).drift_history = [] ∧
    (reset_conversation e).last_good_turn = 0 :=
  ⟨rfl, rfl, rfl, rfl, rfl, rfl, rfl⟩

/-- C1 (counterexample): `setGoal` does not reset the conversation to empty:
after one turn, calling `set_north_star` again leaves the recorded turn in
place, so `getSummary` reports `total_turns = 1`, not `0`. -/
theorem set_goal_retains_history_counterexample :
    (get_conversation_summary (set_north_star
      (add_turn failingVectorizer
        (set_north_star (mkEngine (45/100) 3) "goal one") "u" "r").1
      "goal two")).total_turns = 1 ∧
    (set_north_star
      (add_turn failingVectorizer
        (set_north_star (mkEngine (45/100) 3) "goal one") "u" "r").1
      "goal two").conversation_history ≠ [] := by
  refine ⟨rfl, by decide⟩

/-- C1 (amended): `set_north_star` stores the goal, resets `all_texts` to
the goal alone and sets `last_good_turn = 1`, but leaves the conversation
history and the drift history exactly as they were; consequently the
`getSummary` scenario (total_turns = 0, drift_checks = 0,
current_drift_status = false, last_good_turn = 1) holds exactly when the
engine had no previously accumulated turns or verdicts. -/
theorem set_north_star_effect (e : DriftEngine) (t : String) :
    (set_north_star e t).north_star = some t ∧
    (set_north_star e t).all_texts = [t] ∧
    (set_north_star e t).last_good_turn = 1 ∧
    (set_north_star e t).conversation_history = e.conversation_history ∧
    (set_north_star e t).drift_history = e.drift_history ∧
    (e.conversation_history = [] → e.drift_history = [] →
      (get_conversation_summary (set_north_star e t)).total_turns = 0 ∧
      (get_conversation_summary (set_north_star e t)).drift_checks = 0 ∧
      (get_conversation_summary (set_north_star e t)).current_drift_status = false ∧
      (get_conversation_summary (set_north_star e t)).last_good_turn = 1) := by
  refine ⟨rfl, rfl, rfl, rfl, rfl, fun h1 h2 => ?_⟩
  simp [get_conversation_summary, set_north_star, h1, h2]

/-- Witness for `set_north_star_effect` on a freshly constructed engine. -/
theorem set_north_star_effect_witness :
    (mkEngine (45/100) 3).conversation_history = [] ∧
    (mkEngine (45/100) 3).drift_history = [] ∧
    ((get_conversation_summary (set_north_star (mkEngine (45/100) 3) "X")).total_turns = 0 ∧
     (get_conversation_summary (set_north_star (mkEngine (45/100) 3) "X")).drift_checks = 0 ∧
     (get_conversation_summary (set_north_star (mkEngine (45/100) 3) "X")).current_drift_status = false ∧
     (get_conversation_summary (set_north_star (mkEngine (45/100) 3) "X")).last_good_turn = 1) :=
  ⟨rfl, rfl, (set_north_star_effect (mkEngine (45/100) 3) "X").2.2.2.2.2 rfl rfl⟩

/-- C2 (counterexample): `add_turn` on an engine whose goal was never set
does not fail — it appends the turn and returns no verdict. -/
theorem add_turn_no_init_check_counterexample :
    (add_turn failingVectorizer (mkEngine (45/100) 3) "hello" "world").2 = .ok none ∧
    (add_turn failingVectorizer (mkEngine (45/100) 3) "hello" "world").1.conversation_history.length = 1 :=
  ⟨rfl, rfl⟩

/-- C2 (amended): with the goal unset, `check_drift` fails before any
mutation (the caller's state is unchanged), while `add_turn` performs no
initialization check: it always appends the turn — growing the history by
one even when the automatically triggered check then fails — and it fails
exactly when the new turn number is a multiple of `check_interval`. -/
theorem uninitialized_behavior (sim : TfidfOracle) (e : DriftEngine) (u a : String)
    (h : goalUnset e = true) :
    check_drift sim e = .error () ∧
    (add_turn sim e u a).1.conversation_history =
      e.conversation_history ++ [⟨e.conversation_history.length + 1, u, a⟩] ∧
    (add_turn sim e u a).2 =
      (if (e.conversation_history.length + 1) % e.check_interval = 0 then
        .error () else .ok none) := by
  have hcd : ∀ e' : DriftEngine, goalUnset e' = true → check_drift sim e' = .error () := by
    intro e' h'
    rw [check_drift, if_pos (by simp [h'])]
  have he1 : check_drift sim
      { e with
        conversation_history := e.conversation_history ++
          [⟨e.conversation_history.length + 1, u, a⟩]
        all_texts := e.all_texts ++ [u ++ " " ++ a] } = .error () := hcd _ h
  refine ⟨hcd e h, ?_, ?_⟩
  · rw [add_turn]
    split
    · rw [he1]
    · rfl
  · rw [add_turn]
    split
    · rw [he1]
    · rfl

/-- Witness for `uninitialized_behavior` on a freshly constructed engine
(goal never set) with one turn added. -/
theorem uninitialized_behavior_witness :
    goalUnset (mkEngine (45/100) 3) = true ∧
    (check_drift failingVectorizer (mkEngine (45/100) 3) = .error () ∧
     (add_turn failingVectorizer (mkEngine (45/100) 3) "a" "b").1.conversation_history =
       (mkEngine (45/100) 3).conversation_history ++
         [⟨(mkEngine (45/100) 3).conversation_history.length + 1, "a", "b"⟩] ∧
     (add_turn failingVectorizer (mkEngine (45/100) 3) "a" "b").2 =
       (if ((mkEngine (45/100) 3).conversation_history.length + 1) %
           (mkEngine (45/100) 3).check_interval = 0 then
         .error () else .ok none)) :=
  ⟨rfl, uninitialized_behavior failingVectorizer (mkEngine (45/100) 3) "a" "b" rfl⟩

/-- Inversion of a successful `check_drift` call: the exact verdict and
post-state. -/
theorem check_drift_ok_dest (sim : TfidfOracle) (e : DriftEngine) (m : DriftMetrics)
    (e' : DriftEngine) (hok : check_drift sim e = .ok (m, e')) :
    goalUnset e = false ∧
    m = { turn_number := e.conversation_history.length
          similarity_score := similarity_of sim e
          is_drifting := decide (similarity_of sim e < e.threshold)
          last_good_turn :=
            if similarity_of sim e < e.threshold then
              e.last_good_turn else e.conversation_history.length
          drift_reason := none } ∧
    e' = { e with
      last_good_turn :=
        if similarity_of sim e < e.threshold then
          e.last_good_turn else e.conversation_history.length
      drift_history := e.drift_history ++ [m] } := by
  by_cases hg : goalUnset e = true
  · rw [check_drift, if_pos (by simp [hg])] at hok
    cases hok
  · have hg' : goalUnset e = false := by simpa using hg
    rw [check_drift_unfold sim e hg'] at hok
    obtain ⟨hm, he⟩ := Prod.mk.injEq .. ▸ Except.ok.injEq .. ▸ hok
    exact ⟨hg', hm.symm, by rw [← he, ← hm]⟩

/-- A successful `check_drift` leaves every field but `last_good_turn` and
`drift_history` unchanged, and appends exactly the returned verdict. -/
theorem check_drift_preserves (sim : TfidfOracle) (e : DriftEngine) (m : DriftMetrics)
    (e' : DriftEngine) (hok : check_drift sim e = .ok (m, e')) :
    e'.north_star = e.north_star ∧ e'.check_interval = e.check_interval ∧
    e'.threshold = e.threshold ∧ e'.conversation_history = e.conversation_history ∧
    e'.all_texts = e.all_texts ∧ e'.drift_history = e.drift_history ++ [m] := by
  obtain ⟨-, -, he⟩ := check_drift_ok_dest sim e m e' hok
  subst he
  exact ⟨rfl, rfl, rfl, rfl, rfl, rfl⟩

/-- `check_drift` cannot lower `last_good_turn` while it is a turn count
that the history actually reaches. -/
theorem check_drift_lgt_mono (sim : TfidfOracle) (e : DriftEngine) (m : DriftMetrics)
    (e' : DriftEngine) (h : e.last_good_turn ≤ e.conversation_history.length)
    (hok : check_drift sim e = .ok (m, e')) :
    e.last_good_turn ≤ e'.last_good_turn := by
  obtain ⟨-, -, he⟩ := check_drift_ok_dest sim e m e' hok
  subst he
  dsimp only
  split
  · exact le_refl _
  · exact h

/-- `add_turn` preserves goal, interval and threshold, grows the history by
exactly one turn, and cannot lower a `last_good_turn` that the history
reaches. -/
theorem add_turn_state (sim : TfidfOracle) (e : DriftEngine) (u a : String) :
    (add_turn sim e u a).1.north_star = e.north_star ∧
    (add_turn sim e u a).1.check_interval = e.check_interval ∧
    (add_turn sim e u a).1.threshold = e.threshold ∧
    (add_turn sim e u a).1.conversation_history.length = e.conversation_history.length + 1 ∧
    (e.last_good_turn ≤ e.conversation_history.length →
      e.last_good_turn ≤ (add_turn sim e u a).1.last_good_turn) := by
  rw [add_turn]
  split
  · rcases hcd : check_drift sim
      { e with
        conversation_history := e.conversation_history ++
          [⟨e.conversation_history.length + 1, u, a⟩]
        all_texts := e.all_texts ++ [u ++ " " ++ a] } with _ | ⟨m, e2⟩
    · exact ⟨rfl, rfl, rfl, by simp, fun h => le_refl _⟩
    · obtain ⟨hn, hk, ht, hc, -, -⟩ := check_drift_preserves sim _ m e2 hcd
      refine ⟨hn, hk, ht, by rw [hc]; simp, fun h => ?_⟩
      exact check_drift_lgt_mono sim
        { e with
          conversation_history := e.conversation_history ++
            [⟨e.conversation_history.length + 1, u, a⟩]
          all_texts := e.all_texts ++ [u ++ " " ++ a] } m e2
        (by simp only [List.length_append, List.length_cons, List.length_nil]
            exact Nat.le_succ_of_le h) hcd
  · exact ⟨rfl, rfl, rfl, by simp, fun h => le_refl _⟩

/-- A three-turn on-topic run (the vectorizer failing throughout, so every
score is the lexical fallback): the automatic check at turn 3 scores 1 and
sets `last_good_turn = 3`. -/
def onTopicRun : DriftEngine :=
  (add_turn failingVectorizer
    (add_turn failingVectorizer
      (add_turn failingVectorizer
        (set_north_star (mkEngine (45/100) 3) "alpha beta") "alpha" "beta").1
      "alpha" "beta").1
    "alpha" "beta").1

/-- C3 (counterexample): after an on-topic run has raised `last_good_turn`
to 3, calling `set_north_star` again resets it to 1 — a strict decrease
within the same engine instance's lifetime. -/
theorem last_good_turn_rollback_counterexample :
    onTopicRun.last_good_turn = 3 ∧
    (set_north_star onTopicRun "new goal").last_good_turn = 1 := by
  constructor <;> decide

/-- C3 (amended): `last_good_turn` is non-decreasing under `add_turn` and
`check_drift` whenever its current value does not exceed the turn count
(true of every state those two operations produce); `set_north_star`,
however, resets it to 1 — a rollback when it was above 1 — and
`check_drift` on an empty history, where `last_good_turn = 1` exceeds the
turn count 0, can lower it to 0. -/
theorem last_good_turn_monotone (sim : TfidfOracle) (e : DriftEngine) (u a t : String)
    (h : e.last_good_turn ≤ e.conversation_history.length) :
    e.last_good_turn ≤ (add_turn sim e u a).1.last_good_turn ∧
    (∀ m e', check_drift sim e = .ok (m, e') → e.last_good_turn ≤ e'.last_good_turn) ∧
    (set_north_star e t).last_good_turn = 1 :=
  ⟨(add_turn_state sim e u a).2.2.2.2 h,
   fun m e' hok => check_drift_lgt_mono sim e m e' h hok, rfl⟩

/-- Witness for `last_good_turn_monotone` at the concrete three-turn run. -/
theorem last_good_turn_monotone_witness :
    onTopicRun.last_good_turn ≤ onTopicRun.conversation_history.length ∧
    (onTopicRun.last_good_turn ≤
       (add_turn failingVectorizer onTopicRun "x" "y").1.last_good_turn ∧
     (∀ m e', check_drift failingVectorizer onTopicRun = .ok (m, e') →
       onTopicRun.last_good_turn ≤ e'.last_good_turn) ∧
     (set_north_star onTopicRun "z").last_good_turn = 1) :=
  ⟨by decide, last_good_turn_monotone failingVectorizer onTopicRun "x" "y" "z" (by decide)⟩

/-- A concrete initialized engine: the hosted default interval 3 with the
standalone threshold 0.45 and a non-empty goal. -/
def goalEngine : DriftEngine := set_north_star (mkEngine (45/100) 3) "refund order"

/-- C5: a `check_drift` call on an initialized engine returns a verdict and
updates exactly `last_good_turn` (to the turn count iff the score is not
below the threshold, otherwise unchanged) and `drift_history` (one verdict
appended, whose `last_good_turn` field is the post-update value); goal,
conversation history, accumulated texts, threshold and interval are
untouched. -/
theorem check_drift_frame (sim : TfidfOracle) (e : DriftEngine) (h : goalUnset e = false) :
    ∃ m e', check_drift sim e = .ok (m, e') ∧
      e'.last_good_turn =
        (if e.threshold ≤ similarity_of sim e then
          e.conversation_history.length else e.last_good_turn) ∧
      m.last_good_turn = e'.last_good_turn ∧
      e'.drift_history = e.drift_history ++ [m] ∧
      e'.conversation_history = e.conversation_history ∧
      e'.north_star = e.north_star ∧
      e'.all_texts = e.all_texts ∧
      e'.threshold = e.threshold ∧
      e'.check_interval = e.check_interval := by
  refine ⟨_, _, check_drift_unfold sim e h, ?_, rfl, rfl, rfl, rfl, rfl, rfl, rfl⟩
  dsimp only
  by_cases hs : similarity_of sim e < e.threshold
  · rw [if_pos hs, if_neg (not_le.mpr hs)]
  · rw [if_neg hs, if_pos (not_lt.mp hs)]

/-- Witness for `check_drift_frame` on `goalEngine` with a vectorizer
scoring 1/2. -/
theorem check_drift_frame_witness :
    goalUnset goalEngine = false ∧
    (∃ m e', check_drift (constVectorizer (1/2)) goalEngine = .ok (m, e') ∧
      e'.last_good_turn =
        (if goalEngine.threshold ≤ similarity_of (constVectorizer (1/2)) goalEngine then
          goalEngine.conversation_history.length else goalEngine.last_good_turn) ∧
      m.last_good_turn = e'.last_good_turn ∧
      e'.drift_history = goalEngine.drift_history ++ [m] ∧
      e'.conversation_history = goalEngine.conversation_history ∧
      e'.north_star = goalEngine.north_star ∧
      e'.all_texts = goalEngine.all_texts ∧
      e'.threshold = goalEngine.threshold ∧
      e'.check_interval = goalEngine.check_interval) :=
  ⟨by decide, check_drift_frame (constVectorizer (1/2)) goalEngine (by decide)⟩

/-- C7: two consecutive `check_drift` calls without an intervening turn
yield verdicts with identical similarity scores (the score is a function of
the goal and the window only) and each appends, so the drift history grows
by two. -/
theorem check_drift_idempotent (sim : TfidfOracle) (e : DriftEngine)
    (m1 : DriftMetrics) (e1 : DriftEngine) (m2 : DriftMetrics) (e2 : DriftEngine)
    (h1 : check_drift sim e = .ok (m1, e1)) (h2 : check_drift sim e1 = .ok (m2, e2)) :
    m1.similarity_score = m2.similarity_score ∧
    e2.drift_history.length = e.drift_history.length + 2 := by
  obtain ⟨hg, hm1, he1⟩ := check_drift_ok_dest sim e m1 e1 h1
  obtain ⟨-, hm2, he2⟩ := check_drift_ok_dest sim e1 m2 e2 h2
  have hsim : similarity_of sim e1 = similarity_of sim e :=
    similarity_of_congr sim e1 e (by rw [he1]) (by rw [he1])
  constructor
  · rw [hm1, hm2]
    dsimp only
    rw [hsim]
  · rw [he2]
    dsimp only
    rw [he1]
    simp

/-- The verdict of the first check on `goalEngine` under a vectorizer
scoring 1/2 (score at threshold 0.45: not drifting, empty history, so
`last_good_turn` becomes 0). -/
def firstCheck : DriftMetrics :=
  { turn_number := 0
    similarity_score := 1/2
    is_drifting := false
    last_good_turn := 0
    drift_reason := none }

/-- `goalEngine` after that first check. -/
def engineAfterFirstCheck : DriftEngine :=
  { goalEngine with last_good_turn := 0, drift_history := [firstCheck] }

/-- `goalEngine` after checking twice in a row. -/
def engineAfterSecondCheck : DriftEngine :=
  { engineAfterFirstCheck with drift_history := [firstCheck, firstCheck] }

/-- Witness for `check_drift_idempotent`: the two concrete consecutive
checks on `goalEngine`. -/
theorem check_drift_idempotent_witness :
    firstCheck.similarity_score = firstCheck.similarity_score ∧
    engineAfterSecondCheck.drift_history.length = goalEngine.drift_history.length + 2 :=
  check_drift_idempotent (constVectorizer (1/2)) goalEngine firstCheck
    engineAfterFirstCheck firstCheck engineAfterSecondCheck rfl rfl

/-- C10: on an initialized engine with an empty conversation history,
`check_drift` returns normally with a verdict numbered 0 — a turn number no
recorded turn carries — and, when the score is at or above the threshold,
the post-state's `last_good_turn` is 0, strictly below its initialized
value 1. -/
theorem check_drift_empty_history (sim : TfidfOracle) (e : DriftEngine)
    (hg : goalUnset e = false) (hh : e.conversation_history = []) :
    ∃ m e', check_drift sim e = .ok (m, e') ∧
      m.turn_number = 0 ∧
      (∀ t ∈ e.conversation_history, t.turn_number ≠ m.turn_number) ∧
      (e.threshold ≤ similarity_of sim e →
        e'.last_good_turn = 0 ∧ e'.last_good_turn < 1) := by
  refine ⟨_, _, check_drift_unfold sim e hg, ?_, ?_, ?_⟩
  · dsimp only
    rw [hh]
    rfl
  · rw [hh]
    intro t ht
    cases ht
  · intro hle
    dsimp only
    rw [if_neg (not_lt.mpr hle), hh]
    exact ⟨rfl, Nat.zero_lt_one⟩

/-- Witness for `check_drift_empty_history` on `goalEngine` (empty history,
threshold 0.45) with a vectorizer scoring 1/2 ≥ 0.45. -/
theorem check_drift_empty_history_witness :
    goalUnset goalEngine = false ∧
    goalEngine.conversation_history = [] ∧
    (∃ m e', check_drift (constVectorizer (1/2)) goalEngine = .ok (m, e') ∧
      m.turn_number = 0 ∧
      (∀ t ∈ goalEngine.conversation_history, t.turn_number ≠ m.turn_number) ∧
      (goalEngine.threshold ≤ similarity_of (constVectorizer (1/2)) goalEngine →
        e'.last_good_turn = 0 ∧ e'.last_good_turn < 1)) :=
  ⟨by decide, rfl, check_drift_empty_history (constVectorizer (1/2)) goalEngine (by decide) rfl⟩

/-- When the new turn number is not a multiple of the interval, `add_turn`
returns no verdict (and cannot fail). -/
theorem add_turn_no_check (sim : TfidfOracle) (e : DriftEngine) (u a : String)
    (hmod : ¬(e.conversation_history.length + 1) % e.check_interval = 0) :
    (add_turn sim e u a).2 = .ok none := by
  rw [add_turn]
  split
  · exact absurd (by assumption) hmod
  · rfl

/-- When the goal is set and the new turn number is a multiple of the
interval, `add_turn` returns a verdict. -/
theorem add_turn_check (sim : TfidfOracle) (e : DriftEngine) (u a : String)
    (hg : goalUnset e = false)
    (hmod : (e.conversation_history.length + 1) % e.check_interval = 0) :
    ∃ m, (add_turn sim e u a).2 = .ok (some m) := by
  have hge1 : goalUnset
      { e with
        conversation_history := e.conversation_history ++
          [⟨e.conversation_history.length + 1, u, a⟩]
        all_texts := e.all_texts ++ [u ++ " " ++ a] } = false := hg
  rw [add_turn]
  split
  · rw [check_drift_unfold sim _ hge1]
    exact ⟨_, rfl⟩
  · exact absurd hmod (by assumption)

/-- The number of automatic verdicts over any run of turns is the number of
multiples of the interval among the assigned turn numbers. -/
theorem run_turns_count (sim : TfidfOracle) (pairs : List (String × String)) :
    ∀ e : DriftEngine, goalUnset e = false → 0 < e.check_interval →
      (run_turns sim e pairs).2 =
        (e.conversation_history.length + pairs.length) / e.check_interval -
          e.conversation_history.length / e.check_interval := by
  induction pairs with
  | nil =>
    intro e hg hk
    simp [run_turns]
  | cons p rest ih =>
    obtain ⟨u, a⟩ := p
    intro e hg hk
    obtain ⟨hn, hkeep, -, hlen, -⟩ := add_turn_state sim e u a
    have hg1 : goalUnset (add_turn sim e u a).1 = false := by
      rw [goalUnset_congr (add_turn sim e u a).1 e hn]
      exact hg
    have hk1 : 0 < (add_turn sim e u a).1.check_interval := by
      rw [hkeep]
      exact hk
    have htail := ih (add_turn sim e u a).1 hg1 hk1
    rw [hlen, hkeep] at htail
    have hsucc := Nat.succ_div e.conversation_history.length e.check_interval
    have hmono : (e.conversation_history.length + 1) / e.check_interval ≤
        (e.conversation_history.length + 1 + rest.length) / e.check_interval :=
      Nat.div_le_div_right (Nat.le_add_right _ _)
    have harr : e.conversation_history.length + (rest.length + 1) =
        e.conversation_history.length + 1 + rest.length := by omega
    simp only [run_turns, List.length_cons, harr]
    by_cases hmod : (e.conversation_history.length + 1) % e.check_interval = 0
    · obtain ⟨m, hm⟩ := add_turn_check sim e u a hg hmod
      have hdvd : e.check_interval ∣ e.conversation_history.length + 1 :=
        Nat.dvd_iff_mod_eq_zero.mpr hmod
      rw [if_pos hdvd] at hsucc
      rw [hm, htail]
      dsimp only
      generalize (e.conversation_history.length + 1 + rest.length) / e.check_interval = X
        at hmono ⊢
      generalize (e.conversation_history.length + 1) / e.check_interval = Y at hsucc hmono ⊢
      generalize e.conversation_history.length / e.check_interval = Z at hsucc ⊢
      omega
    · have hdvd : ¬e.check_interval ∣ e.conversation_history.length + 1 :=
        fun hd => hmod (Nat.dvd_iff_mod_eq_zero.mp hd)
      rw [if_neg hdvd] at hsucc
      rw [add_turn_no_check sim e u a hmod, htail]
      dsimp only
      generalize (e.conversation_history.length + 1 + rest.length) / e.check_interval = X
        at hmono ⊢
      generalize (e.conversation_history.length + 1) / e.check_interval = Y at hsucc hmono ⊢
      generalize e.conversation_history.length / e.check_interval = Z at hsucc ⊢
      omega

/-- C4: with the goal set and a positive interval, `add_turn` returns a
verdict iff the turn number it assigns is a multiple of `check_interval`;
over any `check_interval · mcount` consecutive turns exactly `mcount`
verdicts are produced; and `set_north_star` (the only other mutating
operation) appends no verdict. -/
theorem add_turn_verdict_schedule (sim : TfidfOracle) (e : DriftEngine) (u a t : String)
    (pairs : List (String × String)) (mcount : Nat)
    (hg : goalUnset e = false) (hk : 0 < e.check_interval) :
    ((∃ m, (add_turn sim e u a).2 = .ok (some m)) ↔
      (e.conversation_history.length + 1) % e.check_interval = 0) ∧
    (pairs.length = e.check_interval * mcount → (run_turns sim e pairs).2 = mcount) ∧
    (set_north_star e t).drift_history = e.drift_history := by
  refine ⟨⟨?_, add_turn_check sim e u a hg⟩, ?_, rfl⟩
  · rintro ⟨m, hm⟩
    by_contra hmod
    rw [add_turn_no_check sim e u a hmod] at hm
    simp at hm
  · intro hlen
    rw [run_turns_count sim pairs e hg hk, hlen,
      Nat.add_mul_div_left _ _ hk]
    omega

/-- Six consecutive turns (u, a): with interval 3 they trigger exactly the
checks at turns 3 and 6. -/
def pairsSix : List (String × String) := List.replicate 6 ("alpha", "beta")

/-- Witness for `add_turn_verdict_schedule`: on `goalEngine` (interval 3,
empty history) the first turn yields no verdict, six turns yield exactly
two verdicts, and re-setting the goal appends none. -/
theorem add_turn_verdict_schedule_witness :
    goalUnset goalEngine = false ∧
    0 < goalEngine.check_interval ∧
    (¬∃ m, (add_turn failingVectorizer goalEngine "u" "r").2 = .ok (some m)) ∧
    (run_turns failingVectorizer goalEngine pairsSix).2 = 2 ∧
    (set_north_star goalEngine "t").drift_history = goalEngine.drift_history := by
  have h := add_turn_verdict_schedule failingVectorizer goalEngine "u" "r" "t"
    pairsSix 2 (by decide) (by decide)
  exact ⟨by decide, by decide,
    fun hex => absurd (h.1.mp hex) (by decide), h.2.1 (by decide), h.2.2⟩

/-- The similarity a check uses lies in [0,1] whenever the vectorization
oracle's successful scores do (the lexical fallback's always do). -/
theorem similarity_of_mem (sim : TfidfOracle)
    (hsim : ∀ a b q, sim a b = some q → 0 ≤ q ∧ q ≤ 1) (e : DriftEngine) :
    0 ≤ similarity_of sim e ∧ similarity_of sim e ≤ 1 := by
  unfold similarity_of
  dsimp only
  rcases hvs : sim (e.north_star.getD "") (generate_state_summary e) with _ | q
  · exact ⟨fallback_nonneg _ _, fallback_le_one _ _⟩
  · exact hsim _ _ q hvs

/-- C6: provided the vectorization oracle returns scores in [0,1] (the
contract of cosine similarity over non-negative TF-IDF vectors; the
fallback satisfies it unconditionally), every verdict — from a manual
`check_drift` or an automatic check inside `add_turn` — carries a
similarity score in [0,1] and an `is_drifting` flag equal to
`score < threshold`. -/
theorem verdict_score_range (sim : TfidfOracle)
    (hsim : ∀ a b q, sim a b = some q → 0 ≤ q ∧ q ≤ 1) (e : DriftEngine) (u a : String) :
    (∀ m e', check_drift sim e = .ok (m, e') →
      (0 ≤ m.similarity_score ∧ m.similarity_score ≤ 1) ∧
      (m.is_drifting = true ↔ m.similarity_score < e.threshold)) ∧
    (∀ m, (add_turn sim e u a).2 = .ok (some m) →
      (0 ≤ m.similarity_score ∧ m.similarity_score ≤ 1) ∧
      (m.is_drifting = true ↔ m.similarity_score < e.threshold)) := by
  constructor
  · intro m e' hok
    obtain ⟨-, hm, -⟩ := check_drift_ok_dest sim e m e' hok
    subst hm
    refine ⟨similarity_of_mem sim hsim e, ?_⟩
    dsimp only
    exact decide_eq_true_iff
  · intro m hm
    rw [add_turn] at hm
    split at hm
    · rcases hcd : check_drift sim
        { e with
          conversation_history := e.conversation_history ++
            [⟨e.conversation_history.length + 1, u, a⟩]
          all_texts := e.all_texts ++ [u ++ " " ++ a] } with x | ⟨m2, e2⟩
      · rw [hcd] at hm
        simp at hm
      · rw [hcd] at hm
        simp only [Except.ok.injEq, Option.some.injEq] at hm
        subst hm
        obtain ⟨-, hm2, -⟩ := check_drift_ok_dest sim _ m2 e2 hcd
        subst hm2
        refine ⟨similarity_of_mem sim hsim _, ?_⟩
        dsimp only
        exact decide_eq_true_iff
    · simp at hm

/-- Witness for `verdict_score_range`: a vectorizer constantly scoring 1/2,
applied to `goalEngine`. -/
theorem verdict_score_range_witness :
    (∀ a b q, constVectorizer (1/2) a b = some q → 0 ≤ q ∧ q ≤ 1) ∧
    ((∀ m e', check_drift (constVectorizer (1/2)) goalEngine = .ok (m, e') →
      (0 ≤ m.similarity_score ∧ m.similarity_score ≤ 1) ∧
      (m.is_drifting = true ↔ m.similarity_score < goalEngine.threshold)) ∧
     (∀ m, (add_turn (constVectorizer (1/2)) goalEngine "u" "r").2 = .ok (some m) →
      (0 ≤ m.similarity_score ∧ m.similarity_score ≤ 1) ∧
      (m.is_drifting = true ↔ m.similarity_score < goalEngine.threshold))) :=
  have hs : ∀ a b q, constVectorizer (1/2) a b = some q → 0 ≤ q ∧ q ≤ 1 := by
    intro a b q hq
    simp only [constVectorizer, Option.some.injEq] at hq
    subst hq
    decide
  ⟨hs, verdict_score_range (constVectorizer (1/2)) hs goalEngine "u" "r"⟩
